import Mathlib

/-!
Verification of the mathengine repository: a shallow embedding of the unit
framework (mathengine-units), the lexer (mathengine-lexer), the Pratt parser
(mathengine-parser) and the unit-aware evaluator (mathengine-evaluator),
together with theorems settling the specification claims.

Modelling conventions:
* `f64` is modelled as `ℚ`.  Every numeric literal exercised by the claims
  (1, 2, 3, 100, 512, the metric scale factors written as decimal literals)
  is dyadic or only combined by operations that are exact in IEEE double for
  these magnitudes, so the rational model agrees with the compiled code on
  every input appearing in a claim.  `f64::powf` is modelled exactly on
  integer exponents (where the double computation is exact for the small
  operands involved) and only integer exponents occur in the claims.
* Rust `Result` becomes `Except`, `Option` stays `Option`; a Rust panic
  (`unwrap` on `Err`) is modelled as `Option.none`.
* Strings stay `String`; Rust `to_lowercase` is per-character ASCII lowering
  (ASCII input is assumed by the source, see spec section 4.2).
-/

set_option maxHeartbeats 1000000

namespace MathEngine

deriving instance DecidableEq for Except

/-- Rust `str::to_lowercase` (ASCII-only input is assumed by the source,
spec section 4.2, so per-character lowering is exact). -/
def to_lowercase (s : String) : String :=
  String.mk (s.data.map Char.toLower)

/-- `UnitError` from src/mathengine-units/src/lib.rs. -/
inductive UnitError where
  | UnknownUnit (s : String)
deriving DecidableEq, Repr

/-- `LengthUnit` from src/mathengine-units/src/length.rs. -/
inductive LengthUnit where
  | Meter
  | Centimeter
  | Millimeter
  | Kilometer
  | Foot
  | Inch
  | Yard
  | Mile
deriving DecidableEq, Repr

/-- `TemperatureUnit` from src/mathengine-units/src/temperature.rs (the
source spells the variants `Celcius` and `Farenheit`). -/
inductive TemperatureUnit where
  | Kelvin
  | Celcius
  | Farenheit
deriving DecidableEq, Repr

/-- `LengthUnit::canonical_string` from src/mathengine-units/src/length.rs. -/
def LengthUnit.canonical_string : LengthUnit → String
  | .Meter => "m"
  | .Centimeter => "cm"
  | .Millimeter => "mm"
  | .Kilometer => "km"
  | .Foot => "ft"
  | .Inch => "in"
  | .Yard => "yd"
  | .Mile => "mi"

/-- `TemperatureUnit::canonical_string` from
src/mathengine-units/src/temperature.rs. -/
def TemperatureUnit.canonical_string : TemperatureUnit → String
  | .Kelvin => "K"
  | .Celcius => "C"
  | .Farenheit => "F"

/-- `LengthDimension::parse_unit` from src/mathengine-units/src/length.rs. -/
def LengthDimension.parse_unit (s : String) : Except UnitError LengthUnit :=
  match to_lowercase s with
  | "m" | "meter" | "meters" => .ok .Meter
  | "cm" | "centimeter" | "centimeters" => .ok .Centimeter
  | "mm" | "millimeter" | "millimeters" => .ok .Millimeter
  | "km" | "kilometer" | "kilometers" => .ok .Kilometer
  | "ft" | "foot" | "feet" => .ok .Foot
  | "in" | "inch" | "inches" => .ok .Inch
  | "yd" | "yard" | "yards" => .ok .Yard
  | "mi" | "mile" | "miles" => .ok .Mile
  | _ => .error (.UnknownUnit s)

/-- `TemperatureDimension::parse_unit` from
src/mathengine-units/src/temperature.rs.  Note the source's match arms are
spelled `"celcius"` and `"farenheit"`. -/
def TemperatureDimension.parse_unit (s : String) : Except UnitError TemperatureUnit :=
  match to_lowercase s with
  | "c" | "celcius" => .ok .Celcius
  | "f" | "farenheit" => .ok .Farenheit
  | "k" | "kelvin" => .ok .Kelvin
  | _ => .error (.UnknownUnit s)

/-- `LengthDimension` struct from src/mathengine-units/src/length.rs. -/
structure LengthDimension where
  value : ℚ
  unit : LengthUnit
deriving DecidableEq, Repr

/-- `LengthDimension::to_meters` from src/mathengine-units/src/length.rs. -/
def LengthDimension.to_meters (d : LengthDimension) : ℚ :=
  match d.unit with
  | .Meter => d.value
  | .Centimeter => d.value / 100
  | .Millimeter => d.value / 1000
  | .Kilometer => d.value * 1000
  | .Foot => d.value * 0.3048
  | .Inch => d.value * 0.0254
  | .Yard => d.value * 0.9144
  | .Mile => d.value * 1609.344

/-- `LengthDimension::from_meters` from src/mathengine-units/src/length.rs. -/
def LengthDimension.from_meters (meters : ℚ) : LengthUnit → ℚ
  | .Meter => meters
  | .Centimeter => meters * 100
  | .Millimeter => meters * 1000
  | .Kilometer => meters / 1000
  | .Foot => meters / 0.3048
  | .Inch => meters / 0.0254
  | .Yard => meters / 0.9144
  | .Mile => meters / 1609.344

/-- `LengthDimension::convert_direct` from src/mathengine-units/src/length.rs:
direct formulas for the imperial unit pairs, `None` otherwise. -/
def LengthDimension.convert_direct : LengthUnit → LengthUnit → ℚ → Option ℚ
  | .Inch, .Foot, v => some (v / 12)
  | .Foot, .Inch, v => some (v * 12)
  | .Foot, .Yard, v => some (v / 3)
  | .Yard, .Foot, v => some (v * 3)
  | .Inch, .Yard, v => some (v / 36)
  | .Yard, .Inch, v => some (v * 36)
  | .Foot, .Mile, v => some (v / 5280)
  | .Mile, .Foot, v => some (v * 5280)
  | .Inch, .Mile, v => some (v / 63360)
  | .Mile, .Inch, v => some (v * 63360)
  | .Yard, .Mile, v => some (v / 1760)
  | .Mile, .Yard, v => some (v * 1760)
  | _, _, _ => none

/-- `LengthDimension::convert_to` from src/mathengine-units/src/length.rs:
identity on equal units, then the direct formula when available, else the
route through meters. -/
def LengthDimension.convert_to (d : LengthDimension) (target : LengthUnit) : LengthDimension :=
  if d.unit = target then d
  else
    match LengthDimension.convert_direct d.unit target d.value with
    | some direct_value => ⟨direct_value, target⟩
    | none => ⟨LengthDimension.from_meters d.to_meters target, target⟩

/-- `LengthDimension::from_unit` from src/mathengine-units/src/length.rs. -/
def LengthDimension.from_unit (unit_str : String) (value : ℚ) :
    Except UnitError LengthDimension :=
  (LengthDimension.parse_unit unit_str).map (fun u => ⟨value, u⟩)

/-- `TemperatureDimension` struct from
src/mathengine-units/src/temperature.rs. -/
structure TemperatureDimension where
  value : ℚ
  unit : TemperatureUnit
deriving DecidableEq, Repr

/-- `TemperatureDimension::to_kelvin` from
src/mathengine-units/src/temperature.rs. -/
def TemperatureDimension.to_kelvin (d : TemperatureDimension) : ℚ :=
  match d.unit with
  | .Kelvin => d.value
  | .Celcius => d.value + 273.15
  | .Farenheit => (d.value - 32) * 5 / 9 + 273.15

/-- `TemperatureDimension::from_kelvin` from
src/mathengine-units/src/temperature.rs. -/
def TemperatureDimension.from_kelvin (kelvin : ℚ) : TemperatureUnit → ℚ
  | .Kelvin => kelvin
  | .Celcius => kelvin - 273.15
  | .Farenheit => (kelvin - 273.15) * 9 / 5 + 32

/-- `TemperatureDimension::convert_to` from
src/mathengine-units/src/temperature.rs: identity on equal units, otherwise
through Kelvin (no direct formulas for temperature). -/
def TemperatureDimension.convert_to (d : TemperatureDimension)
    (target : TemperatureUnit) : TemperatureDimension :=
  if d.unit = target then d
  else ⟨TemperatureDimension.from_kelvin d.to_kelvin target, target⟩

/-- `TemperatureDimension::from_unit` from
src/mathengine-units/src/temperature.rs. -/
def TemperatureDimension.from_unit (unit_str : String) (value : ℚ) :
    Except UnitError TemperatureDimension :=
  (TemperatureDimension.parse_unit unit_str).map (fun u => ⟨value, u⟩)

/-- Modelled from the spec: the `impl UnitType for LengthUnit` providing
`LengthUnit::parse` is not under src/ (only its callers in
src/mathengine-parser/src/types/dimensions.rs are).  Spec section 4.1 defines a
single case-insensitive `parse` per unit family, so the trait method is
modelled as the family's in-src parse table (`LengthDimension::parse_unit`). -/
def LengthUnit.parse (s : String) : Except UnitError LengthUnit :=
  LengthDimension.parse_unit s

/-- Modelled from the spec: the `impl UnitType for TemperatureUnit` providing
`TemperatureUnit::parse` is not under src/.  Spec section 4.1 defines a single
case-insensitive `parse` per unit family, so the trait method is modelled as
the family's in-src parse table (`TemperatureDimension::parse_unit`). -/
def TemperatureUnit.parse (s : String) : Except UnitError TemperatureUnit :=
  TemperatureDimension.parse_unit s

/-- Modelled from the spec: `base_unit()` of the missing
`impl UnitConversion<LengthUnit> for Dimension<LengthUnit>`; the spec's
glossary fixes meter as the base unit of length. -/
def Dimension.Length.base_unit : LengthUnit := .Meter

/-- Modelled from the spec: `to_base_value` of the missing
`impl UnitConversion<LengthUnit>`; spec section 4.1 makes it the family's
exact linear transform, i.e. the in-src `LengthDimension::to_meters`. -/
def Dimension.Length.to_base_value (unit : LengthUnit) (value : ℚ) : ℚ :=
  LengthDimension.to_meters ⟨value, unit⟩

/-- Modelled from the spec: `from_base_value` of the missing
`impl UnitConversion<LengthUnit>`, i.e. the in-src
`LengthDimension::from_meters`. -/
def Dimension.Length.from_base_value (base_value : ℚ) (unit : LengthUnit) : ℚ :=
  LengthDimension.from_meters base_value unit

/-- `Dimension::<LengthUnit>::convert_value` from
src/mathengine-units/src/lib.rs (equal units are the identity, then the
direct formula, else the route through the base unit), with the
`UnitConversion` operations supplied by the spec-modelled definitions above
and the in-src direct table. -/
def Dimension.Length.convert_value (from_unit to_unit : LengthUnit) (value : ℚ) : ℚ :=
  if from_unit = to_unit then value
  else
    match LengthDimension.convert_direct from_unit to_unit value with
    | some direct_value => direct_value
    | none =>
      Dimension.Length.from_base_value
        (Dimension.Length.to_base_value from_unit value) to_unit

/-- Modelled from the spec: `base_unit()` of the missing
`impl UnitConversion<TemperatureUnit>`; the spec's glossary fixes Kelvin as
the base unit of temperature. -/
def Dimension.Temperature.base_unit : TemperatureUnit := .Kelvin

/-- Modelled from the spec: `to_base_value` of the missing
`impl UnitConversion<TemperatureUnit>`, i.e. the in-src
`TemperatureDimension::to_kelvin`. -/
def Dimension.Temperature.to_base_value (unit : TemperatureUnit) (value : ℚ) : ℚ :=
  TemperatureDimension.to_kelvin ⟨value, unit⟩

/-- Modelled from the spec: `from_base_value` of the missing
`impl UnitConversion<TemperatureUnit>`, i.e. the in-src
`TemperatureDimension::from_kelvin`. -/
def Dimension.Temperature.from_base_value (base_value : ℚ) (unit : TemperatureUnit) : ℚ :=
  TemperatureDimension.from_kelvin base_value unit

/-- `Dimension::<TemperatureUnit>::convert_value` from
src/mathengine-units/src/lib.rs; the temperature family supplies no
`convert_direct` override, so the trait default `None` applies and every
non-identity conversion routes through Kelvin. -/
def Dimension.Temperature.convert_value (from_unit to_unit : TemperatureUnit) (value : ℚ) : ℚ :=
  if from_unit = to_unit then value
  else
    Dimension.Temperature.from_base_value
      (Dimension.Temperature.to_base_value from_unit value) to_unit

/-- `DimensionType` from src/mathengine-parser/src/types/dimensions.rs. -/
inductive DimensionType where
  | Length
  | Temperature
  | Unknown
deriving DecidableEq, Repr

/-- `Unit` from src/mathengine-parser/src/types/dimensions.rs. -/
inductive Unit where
  | Length (u : LengthUnit)
  | Temperature (u : TemperatureUnit)
deriving DecidableEq, Repr

/-- `Unit::canonical_string` from
src/mathengine-parser/src/types/dimensions.rs. -/
def Unit.canonical_string : Unit → String
  | .Length u => u.canonical_string
  | .Temperature u => u.canonical_string

/-- `Unit::dimension_type` from
src/mathengine-parser/src/types/dimensions.rs. -/
def Unit.dimension_type : Unit → DimensionType
  | .Length _ => .Length
  | .Temperature _ => .Temperature

/-- `DimensionType::from_unit` from
src/mathengine-parser/src/types/dimensions.rs: try the Length parser, then
the Temperature parser, else `Unknown`. -/
def DimensionType.from_unit (unit : String) : DimensionType :=
  if (LengthUnit.parse unit).isOk then .Length
  else if (TemperatureUnit.parse unit).isOk then .Temperature
  else .Unknown

/-- `DimensionType::parse_unit_str` from
src/mathengine-parser/src/types/dimensions.rs. -/
def DimensionType.parse_unit_str (d : DimensionType) (unit_str : String) :
    Except UnitError Unit :=
  match d with
  | .Length => (LengthUnit.parse unit_str).map Unit.Length
  | .Temperature => (TemperatureUnit.parse unit_str).map Unit.Temperature
  | .Unknown => .error (.UnknownUnit unit_str)

/-- `DimensionType::canonical_string` from
src/mathengine-parser/src/types/dimensions.rs. -/
def DimensionType.canonical_string (d : DimensionType) (unit : Unit) :
    Option String :=
  if unit.dimension_type = d then some unit.canonical_string else none

/-- `DimensionType::to_base_value` from
src/mathengine-parser/src/types/dimensions.rs. -/
def DimensionType.to_base_value (d : DimensionType) (unit : Unit) (value : ℚ) :
    Option ℚ :=
  match d, unit with
  | .Length, .Length u => some (Dimension.Length.to_base_value u value)
  | .Temperature, .Temperature u => some (Dimension.Temperature.to_base_value u value)
  | _, _ => none

/-- `DimensionType::convert_value` from
src/mathengine-parser/src/types/dimensions.rs (cross-dimension pairs are
rejected with `None`). -/
def DimensionType.convert_value (d : DimensionType) (from_unit to_unit : Unit)
    (value : ℚ) : Option ℚ :=
  match d, from_unit, to_unit with
  | .Length, .Length a, .Length b => some (Dimension.Length.convert_value a b value)
  | .Temperature, .Temperature a, .Temperature b =>
    some (Dimension.Temperature.convert_value a b value)
  | _, _, _ => none

/-- `DimensionType::base_unit_string` from
src/mathengine-parser/src/types/dimensions.rs. -/
def DimensionType.base_unit_string : DimensionType → String
  | .Length => Dimension.Length.base_unit.canonical_string
  | .Temperature => Dimension.Temperature.base_unit.canonical_string
  | .Unknown => "unknown"

/-- `ConversionError` from
src/mathengine-parser/src/types/conversion_error.rs. -/
inductive ConversionError where
  | CrossDimension
  | UnknownUnit (s : String)
  | Failed
deriving DecidableEq, Repr

/-- `UnitValue` from src/mathengine-parser/src/types/unit_value.rs.
The Rust `Number` newtype around `f64` is modelled directly as `ℚ`. -/
structure UnitValue where
  value : ℚ
  unit : String
  dimension : DimensionType
deriving DecidableEq, Repr

/-- `UnitValue::new` from src/mathengine-parser/src/types/unit_value.rs:
the dimension tag is inferred from the unit string. -/
def UnitValue.new (value : ℚ) (unit : String) : UnitValue :=
  ⟨value, unit, DimensionType.from_unit unit⟩

/-- `UnitValue::canonical_unit_name` from
src/mathengine-parser/src/types/unit_value.rs (falls back to the raw unit
string when it cannot be parsed in the tracked dimension). -/
def UnitValue.canonical_unit_name (uv : UnitValue) : String :=
  match uv.dimension.parse_unit_str uv.unit with
  | .ok u =>
    match uv.dimension.canonical_string u with
    | some s => s
    | none => uv.unit
  | .error _ => uv.unit

/-- `UnitValue::to_base_value` from
src/mathengine-parser/src/types/unit_value.rs. -/
def UnitValue.to_base_value (uv : UnitValue) : ℚ :=
  match uv.dimension.parse_unit_str uv.unit with
  | .ok u =>
    match uv.dimension.to_base_value u uv.value with
    | some v => v
    | none => uv.value
  | .error _ => uv.value

/-- `UnitValue::base_unit` from
src/mathengine-parser/src/types/unit_value.rs. -/
def UnitValue.base_unit (uv : UnitValue) : String :=
  uv.dimension.base_unit_string

/-- `UnitValue::convert_to` from
src/mathengine-parser/src/types/unit_value.rs. -/
def UnitValue.convert_to (uv : UnitValue) (target_unit : String) :
    Except ConversionError UnitValue :=
  let target_dimension := DimensionType.from_unit target_unit
  if target_dimension ≠ uv.dimension ∨ target_dimension = DimensionType.Unknown then
    .error .CrossDimension
  else
    match uv.dimension.parse_unit_str uv.unit with
    | .error _ => .error (.UnknownUnit uv.unit)
    | .ok from_unit =>
      match uv.dimension.parse_unit_str target_unit with
      | .error _ => .error (.UnknownUnit target_unit)
      | .ok to_unit =>
        match uv.dimension.convert_value from_unit to_unit uv.value with
        | none => .error .Failed
        | some new_value => .ok (UnitValue.new new_value target_unit)

/-- `UnitValue::can_convert_to` from
src/mathengine-parser/src/types/unit_value.rs. -/
def UnitValue.can_convert_to (uv : UnitValue) (target_unit : String) : Bool :=
  let target_dimension := DimensionType.from_unit target_unit
  target_dimension == uv.dimension && target_dimension != DimensionType.Unknown

/-- `UnitValue::in_base_units` from
src/mathengine-parser/src/types/unit_value.rs: copy when already canonical in
the base unit, else convert, with a raw `to_base_value` fallback when
`convert_to` fails. -/
def UnitValue.in_base_units (uv : UnitValue) : UnitValue :=
  let base_unit_str := uv.base_unit
  if uv.canonical_unit_name = base_unit_str then
    UnitValue.new uv.value base_unit_str
  else
    match uv.convert_to base_unit_str with
    | .ok r => r
    | .error _ => UnitValue.new uv.to_base_value base_unit_str

/-- `UnitValue::same_dimension_as` from
src/mathengine-parser/src/types/unit_value.rs. -/
def UnitValue.same_dimension_as (a b : UnitValue) : Bool :=
  a.dimension == b.dimension && a.dimension != DimensionType.Unknown

/-- `impl Add for UnitValue` from
src/mathengine-parser/src/types/unit_value.rs.  The source returns the LEFT
operand unchanged when the dimensions do not match (its own comment reads
"For now, just return the left side if dimensions don't match / In the
future, this should be an error"). -/
def UnitValue.add (a b : UnitValue) : UnitValue :=
  if !(a.same_dimension_as b) then a
  else
    let left_base := a.in_base_units
    let right_base := b.in_base_units
    UnitValue.new (left_base.value + right_base.value) left_base.unit

/-- `impl Sub for UnitValue` from
src/mathengine-parser/src/types/unit_value.rs (same silent left-side
fallback on dimension mismatch as `Add`). -/
def UnitValue.sub (a b : UnitValue) : UnitValue :=
  if !(a.same_dimension_as b) then a
  else
    let left_base := a.in_base_units
    let right_base := b.in_base_units
    UnitValue.new (left_base.value - right_base.value) left_base.unit

/-- `impl Add<Number> for UnitValue` from
src/mathengine-parser/src/types/unit_value.rs: the number is taken in the
unit value's current unit, fields otherwise unchanged. -/
def UnitValue.add_number (a : UnitValue) (rhs : ℚ) : UnitValue :=
  ⟨a.value + rhs, a.unit, a.dimension⟩

/-- `impl Add<UnitValue> for Number` from
src/mathengine-parser/src/types/unit_value.rs. -/
def UnitValue.number_add (lhs : ℚ) (b : UnitValue) : UnitValue :=
  ⟨lhs + b.value, b.unit, b.dimension⟩

/-- `impl Sub<Number> for UnitValue` from
src/mathengine-parser/src/types/unit_value.rs. -/
def UnitValue.sub_number (a : UnitValue) (rhs : ℚ) : UnitValue :=
  ⟨a.value - rhs, a.unit, a.dimension⟩

/-- `impl Sub<UnitValue> for Number` from
src/mathengine-parser/src/types/unit_value.rs. -/
def UnitValue.number_sub (lhs : ℚ) (b : UnitValue) : UnitValue :=
  ⟨lhs - b.value, b.unit, b.dimension⟩

/-- `impl Mul<Number> for UnitValue` from
src/mathengine-parser/src/types/unit_value.rs. -/
def UnitValue.mul_number (a : UnitValue) (rhs : ℚ) : UnitValue :=
  ⟨a.value * rhs, a.unit, a.dimension⟩

/-- `impl Mul<UnitValue> for Number` from
src/mathengine-parser/src/types/unit_value.rs. -/
def UnitValue.number_mul (lhs : ℚ) (b : UnitValue) : UnitValue :=
  ⟨lhs * b.value, b.unit, b.dimension⟩

/-- `impl Div<Number> for UnitValue` from
src/mathengine-parser/src/types/unit_value.rs. -/
def UnitValue.div_number (a : UnitValue) (rhs : ℚ) : UnitValue :=
  ⟨a.value / rhs, a.unit, a.dimension⟩

/-- `Operation` from src/mathengine-lexer/src/lib.rs. -/
inductive Operation where
  | Add
  | Subtract
  | Divide
  | Multiply
  | Power
  | Convert
deriving DecidableEq, Repr

/-- `Token` from src/mathengine-lexer/src/lib.rs. -/
inductive Token where
  | Operation (op : Operation)
  | Number (n : ℚ)
  | UnitValue (value : ℚ) (unit : String)
  | Unit (s : String)
  | Lparen
  | Rparen
deriving DecidableEq, Repr

/-- `Expression` from src/mathengine-parser/src/ast.rs. -/
inductive Expression where
  | Number (n : ℚ)
  | UnitValue (value : ℚ) (unit : String)
  | Unit (s : String)
  | Binary (op : Operation) (left right : Expression)
  | Unary (op : Operation) (operand : Expression)
deriving DecidableEq, Repr

/-- `Value` from src/mathengine-parser/src/types/value.rs (the `Number`
newtype is modelled directly as `ℚ`). -/
inductive Value where
  | Number (n : ℚ)
  | UnitValue (uv : UnitValue)
deriving DecidableEq, Repr

/-- `EvalError` from src/mathengine-evaluator/src/error.rs. -/
inductive EvalError where
  | DivisionByZero
  | IncompatibleUnits (left_unit right_unit operation : String)
  | UnknownUnit (unit : String)
  | InvalidConversion (from_unit to_unit : String)
  | UnsupportedOperation (operation operand_type : String)
  | InvalidUnitExpression (message : String)
deriving DecidableEq, Repr

/-- Rust `format!("{:?}", op)` on `Operation` (the derived `Debug`
representation is the variant name). -/
def Operation.debug_string : Operation → String
  | .Add => "Add"
  | .Subtract => "Subtract"
  | .Divide => "Divide"
  | .Multiply => "Multiply"
  | .Power => "Power"
  | .Convert => "Convert"

/-- Model of `f64::powf`, exact on integer exponents (the only exponents the
claims exercise; for those the double computation is exact). -/
def powf (a b : ℚ) : ℚ :=
  if b.den = 1 then a ^ b.num else 0

/-- The evaluator's private `DimensionType` enum and `get_dimension_type`
from src/mathengine-evaluator/src/lib.rs; it reuses the parser's
`DimensionType` shape, trying `LengthDimension::parse_unit` before
`TemperatureDimension::parse_unit`. -/
def get_dimension_type (unit : String) : DimensionType :=
  if (LengthDimension.parse_unit unit).isOk then .Length
  else if (TemperatureDimension.parse_unit unit).isOk then .Temperature
  else .Unknown

/-- `evaluate` from src/mathengine-evaluator/src/lib.rs: recursive tree
walk; `Convert` reads its left child STRUCTURALLY (it must literally be a
`UnitValue` expression node) and never evaluates it. -/
def evaluate : Expression → Except EvalError Value
  | .Number n => .ok (.Number n)
  | .UnitValue value unit => .ok (.UnitValue (UnitValue.new value unit))
  | .Unit _ => .error (.InvalidUnitExpression "Cannot evaluate a unit without a value")
  | .Binary .Convert left right =>
    match left with
    | .UnitValue value from_unit =>
      match right with
      | .Unit to_unit =>
        match get_dimension_type from_unit with
        | .Length =>
          match LengthDimension.from_unit from_unit value with
          | .error _ => .error (.UnknownUnit from_unit)
          | .ok fromd =>
            match LengthDimension.parse_unit to_unit with
            | .error _ => .error (.UnknownUnit to_unit)
            | .ok to_u =>
              let converted := fromd.convert_to to_u
              .ok (.UnitValue (UnitValue.new converted.value to_u.canonical_string))
        | .Temperature =>
          match TemperatureDimension.from_unit from_unit value with
          | .error _ => .error (.UnknownUnit from_unit)
          | .ok fromd =>
            match TemperatureDimension.parse_unit to_unit with
            | .error _ => .error (.UnknownUnit to_unit)
            | .ok to_u =>
              let converted := fromd.convert_to to_u
              .ok (.UnitValue (UnitValue.new converted.value to_u.canonical_string))
        | .Unknown => .error (.InvalidConversion from_unit to_unit)
      | _ => .error (.InvalidUnitExpression "Right side of conversion must be a unit")
    | _ => .error (.InvalidUnitExpression "Left side of conversion must be a unit value")
  | .Binary op left right => do
    let left_val ← evaluate left
    let right_val ← evaluate right
    match left_val, right_val with
    | .Number l, .Number r =>
      match op with
      | .Add => .ok (.Number (l + r))
      | .Subtract => .ok (.Number (l - r))
      | .Multiply => .ok (.Number (l * r))
      | .Divide =>
        if r = 0 then .error .DivisionByZero else .ok (.Number (l / r))
      | .Power => .ok (.Number (powf l r))
      | .Convert => .error (.UnsupportedOperation "convert" "numbers")
    | .UnitValue l, .UnitValue r =>
      match op with
      | .Add => .ok (.UnitValue (l.add r))
      | .Subtract => .ok (.UnitValue (l.sub r))
      | .Multiply => .error (.UnsupportedOperation Operation.Multiply.debug_string "unit values")
      | .Divide => .error (.UnsupportedOperation Operation.Divide.debug_string "unit values")
      | .Power => .error (.UnsupportedOperation "power" "unit values")
      | .Convert => .error (.UnsupportedOperation "convert" "unit values")
    | .UnitValue l, .Number r =>
      match op with
      | .Add => .ok (.UnitValue (l.add_number r))
      | .Subtract => .ok (.UnitValue (l.sub_number r))
      | .Multiply => .ok (.UnitValue (l.mul_number r))
      | .Divide =>
        if r = 0 then .error .DivisionByZero else .ok (.UnitValue (l.div_number r))
      | .Power => .error (.UnsupportedOperation "power" "unit value and number")
      | .Convert => .error (.UnsupportedOperation "convert" "unit value and number")
    | .Number l, .UnitValue r =>
      match op with
      | .Add => .ok (.UnitValue (UnitValue.number_add l r))
      | .Subtract => .ok (.UnitValue (UnitValue.number_sub l r))
      | .Multiply => .ok (.UnitValue (UnitValue.number_mul l r))
      | .Divide => .error (.UnsupportedOperation "divide" "number by unit value")
      | .Power => .error (.UnsupportedOperation "power" "number and unit value")
      | .Convert => .error (.UnsupportedOperation "convert" "number and unit value")
  | .Unary op operand => do
    let val ← evaluate operand
    match op with
    | .Subtract =>
      match val with
      | .Number n => .ok (.Number (-n))
      | .UnitValue _ => .error (.UnsupportedOperation "negate" "unit value")
    | _ => .error (.UnsupportedOperation op.debug_string "unary operand")

/-- `ParseError` from src/mathengine-parser/src/error.rs. -/
inductive ParseError where
  | UnexpectedToken (expected : String) (found : Token) (position : Nat)
  | UnexpectedEndOfInput (expected : String)
  | InvalidExpression (message : String) (position : Nat)
  | EmptyTokenStream
deriving DecidableEq, Repr

/-- `Parser::get_precedence` from src/mathengine-parser/src/parser.rs. -/
def get_precedence : Operation → Nat
  | .Add | .Subtract => 1
  | .Multiply | .Divide => 2
  | .Power => 3
  | .Convert => 5

/-- `Parser::is_right_associative` from src/mathengine-parser/src/parser.rs:
only `Power` is right-associative. -/
def is_right_associative : Operation → Bool
  | .Power => true
  | _ => false

/-- `canonicalize_unit` from src/mathengine-parser/src/parser.rs.  The
source calls `.unwrap()` on the family parse result; the panic of an
`unwrap` on `Err` is modelled as `none`. -/
def canonicalize_unit (unit : String) : Option String :=
  match DimensionType.from_unit unit with
  | .Length => (LengthDimension.parse_unit unit).toOption.map LengthUnit.canonical_string
  | .Temperature =>
    (TemperatureDimension.parse_unit unit).toOption.map TemperatureUnit.canonical_string
  | .Unknown => some "unknown"

/-- Placeholder value a panicking `canonicalize_unit` `unwrap` would never
produce; the parser below uses it only on the (provably unreachable) `none`
branch. -/
def panic_unit_string : String := "panic: called unwrap on an Err value"

mutual

/-- The parser's cursor state from src/mathengine-parser/src/parser.rs is the
immutable token vector plus a position; the mutually recursive functions
below thread the position explicitly and take a fuel argument to express the
recursion (the source recursion always advances the cursor, so any fuel of
at least `2 * tokens.length + 4` behaves identically; fuel exhaustion is
reported as an `InvalidExpression` no source path produces).

`Parser::parse_expression` (Pratt loop entry): parse one primary, then fold
binary operators. -/
def parse_expression (tokens : List Token) (fuel min_precedence pos : Nat) :
    Except ParseError (Expression × Nat) :=
  match fuel with
  | 0 => .error (.InvalidExpression "recursion limit exceeded" 0)
  | fuel + 1 => do
    let (left, pos') ← parse_primary tokens fuel pos
    parse_binary_fold tokens fuel min_precedence left pos'
termination_by structural fuel

/-- The `while let Some(token) = self.peek()` operator-folding loop inside
`Parser::parse_expression` from src/mathengine-parser/src/parser.rs. -/
def parse_binary_fold (tokens : List Token) (fuel min_precedence : Nat)
    (left : Expression) (pos : Nat) : Except ParseError (Expression × Nat) :=
  match fuel with
  | 0 => .error (.InvalidExpression "recursion limit exceeded" 0)
  | fuel + 1 =>
    match tokens[pos]? with
    | some (Token.Operation op) =>
      let precedence := get_precedence op
      if precedence < min_precedence then .ok (left, pos)
      else do
        let right_precedence :=
          if is_right_associative op then precedence else precedence + 1
        let (right, pos') ← parse_expression tokens fuel right_precedence (pos + 1)
        parse_binary_fold tokens fuel min_precedence (.Binary op left right) pos'
    | _ => .ok (left, pos)
termination_by structural fuel

/-- `Parser::parse_primary` from src/mathengine-parser/src/parser.rs:
numbers, canonicalized unit-value literals, bare units, parenthesized
sub-expressions and unary minus. -/
def parse_primary (tokens : List Token) (fuel pos : Nat) :
    Except ParseError (Expression × Nat) :=
  match fuel with
  | 0 => .error (.InvalidExpression "recursion limit exceeded" 0)
  | fuel + 1 =>
    match tokens[pos]? with
    | some (Token.Number n) => .ok (.Number n, pos + 1)
    | some (Token.UnitValue value unit) =>
      .ok (.UnitValue value ((canonicalize_unit unit).getD panic_unit_string), pos + 1)
    | some (Token.Unit unit) => .ok (.Unit unit, pos + 1)
    | some Token.Lparen => do
      let (expr, pos') ← parse_expression tokens fuel 0 (pos + 1)
      match tokens[pos']? with
      | some Token.Rparen => .ok (expr, pos' + 1)
      | some other => .error (.UnexpectedToken "\x27)\x27" other pos')
      | none => .error (.UnexpectedEndOfInput "\x27)\x27")
    | some (Token.Operation Operation.Subtract) => do
      let (operand, pos') ← parse_primary tokens fuel (pos + 1)
      .ok (.Unary .Subtract operand, pos')
    | some token =>
      .error (.UnexpectedToken "number, unit value, \x27(\x27, or unary operator" token pos)
    | none => .error (.UnexpectedEndOfInput "expression")
termination_by structural fuel

end

/-- Fuel that the top-level parser hands to `parse_expression`; ample for
the source recursion, which consumes at least one token per two nested
calls. -/
def parse_fuel (tokens : List Token) : Nat := 2 * tokens.length + 4

/-- `Parser::parse` from src/mathengine-parser/src/parser.rs: empty token
stream is rejected, then one expression is parsed at minimum precedence 0
and the cursor must be exactly at the end. -/
def Parser.parse (tokens : List Token) : Except ParseError Expression :=
  if tokens.isEmpty then .error .EmptyTokenStream
  else
    match parse_expression tokens (parse_fuel tokens) 0 0 with
    | .error e => .error e
    | .ok (expr, pos) =>
      if pos < tokens.length then
        .error (.UnexpectedToken "end of input" (tokens.getD pos (.Number 0)) pos)
      else .ok expr

/-- `LexError` from src/mathengine-lexer/src/error.rs. -/
inductive LexError where
  | UnexpectedCharacter (char : Char) (position : Nat)
  | InvalidNumber (input : String) (position : Nat)
  | EmptyInput
deriving DecidableEq, Repr

/-- Digit-string to natural number (helper for the `f64` parse model). -/
def digits_to_nat (cs : List Char) : Option Nat :=
  if cs ≠ [] ∧ cs.all Char.isDigit then
    some (cs.foldl (fun acc c => acc * 10 + (c.toNat - 48)) 0)
  else none

/-- Splits a character list at every dot (helper for the `f64` parse
model). -/
def split_on_dot : List Char → List (List Char)
  | [] => [[]]
  | c :: cs =>
    if c = '.' then [] :: split_on_dot cs
    else
      match split_on_dot cs with
      | [] => [[c]]
      | group :: groups => (c :: group) :: groups

/-- Model of Rust `str::parse::<f64>` on the digit-and-dot strings the lexer
hands it: an integer part, optionally one dot and an optional fraction part;
a second dot or a non-digit fails.  Exact over `ℚ` (the claims only exercise
values whose doubles are exact). -/
def parse_f64 (s : String) : Option ℚ :=
  match split_on_dot s.data with
  | [i] => (digits_to_nat i).map (fun n => (n : ℚ))
  | [i, f] =>
    (digits_to_nat i).bind (fun n =>
      if f = [] then some ((n : ℚ))
      else (digits_to_nat f).map (fun m => (n : ℚ) + (m : ℚ) / (10 : ℚ) ^ f.length))
  | _ => none

/-- `Lexer::lex_number` from src/mathengine-lexer/src/lib.rs: the first
digit plus the maximal following run of digits and dots, together with the
unconsumed remainder. -/
def lex_number (first_digit : Char) (chars : List Char) : String × List Char :=
  let ds := chars.takeWhile (fun c => c.isDigit || c == '.')
  (String.mk (first_digit :: ds), chars.drop ds.length)

/-- `Lexer::lex_identifier` from src/mathengine-lexer/src/lib.rs: the first
character plus the maximal following alphanumeric run. -/
def lex_identifier (first_char : Char) (chars : List Char) : String × List Char :=
  let cs := chars.takeWhile Char.isAlphanum
  (String.mk (first_char :: cs), chars.drop cs.length)

/-- The `while let Some(ch) = chars.next()` loop of `Lexer::tokenize` from
src/mathengine-lexer/src/lib.rs, over the remaining characters and the
source's `position` counter.  Every iteration consumes at least one
character, so any fuel above the character count behaves identically; fuel
exhaustion reports an `UnexpectedCharacter` no claim input can produce. -/
def tokenize_loop : Nat → List Char → Nat → Except LexError (List Token)
  | 0, _, _ => .error (.UnexpectedCharacter (Char.ofNat 0) 0)
  | _ + 1, [], _ => .ok []
  | fuel + 1, ch :: rest, position =>
    if ch.isDigit then
      let start_pos := position
      let (num, rest1) := lex_number ch rest
      let position1 := position + num.length
      let ws := rest1.takeWhile Char.isWhitespace
      let rest2 := rest1.drop ws.length
      let position2 := position1 + ws.length
      match rest2 with
      | c :: rest3 =>
        if c.isAlpha then
          let (unit, rest4) := lex_identifier c rest3
          let position3 := position2 + unit.length
          match parse_f64 num with
          | none => .error (.InvalidNumber num start_pos)
          | some value => do
            let ts ← tokenize_loop fuel rest4 position3
            .ok (Token.UnitValue value unit :: ts)
        else
          match parse_f64 num with
          | none => .error (.InvalidNumber num start_pos)
          | some value => do
            let ts ← tokenize_loop fuel rest2 position2
            .ok (Token.Number value :: ts)
      | [] =>
        match parse_f64 num with
        | none => .error (.InvalidNumber num start_pos)
        | some value => .ok [Token.Number value]
    else if ch.isAlpha then
      let (ident, rest1) := lex_identifier ch rest
      let position1 := position + ident.length
      let tok :=
        if to_lowercase ident = "to" then Token.Operation Operation.Convert
        else Token.Unit (to_lowercase ident)
      do
        let ts ← tokenize_loop fuel rest1 position1
        .ok (tok :: ts)
    else if ch = '+' then do
      let ts ← tokenize_loop fuel rest (position + 1)
      .ok (Token.Operation Operation.Add :: ts)
    else if ch = '-' then do
      let ts ← tokenize_loop fuel rest (position + 1)
      .ok (Token.Operation Operation.Subtract :: ts)
    else if ch = '*' then do
      let ts ← tokenize_loop fuel rest (position + 1)
      .ok (Token.Operation Operation.Multiply :: ts)
    else if ch = '/' then do
      let ts ← tokenize_loop fuel rest (position + 1)
      .ok (Token.Operation Operation.Divide :: ts)
    else if ch = '^' then do
      let ts ← tokenize_loop fuel rest (position + 1)
      .ok (Token.Operation Operation.Power :: ts)
    else if ch = '(' then do
      let ts ← tokenize_loop fuel rest (position + 1)
      .ok (Token.Lparen :: ts)
    else if ch = ')' then do
      let ts ← tokenize_loop fuel rest (position + 1)
      .ok (Token.Rparen :: ts)
    else if ch.isWhitespace then
      tokenize_loop fuel rest (position + 1)
    else
      .error (.UnexpectedCharacter ch position)

/-- `Lexer::tokenize` from src/mathengine-lexer/src/lib.rs.  Rust's
`source.trim().is_empty()` holds exactly when every character is
whitespace. -/
def Lexer.tokenize (source : String) : Except LexError (List Token) :=
  if source.data.all Char.isWhitespace then .error .EmptyInput
  else tokenize_loop (source.data.length + 1) source.data 0

/-- `MathEngineError` from src/mathengine/src/lib.rs. -/
inductive MathEngineError where
  | Lexer (e : LexError)
  | Parser (e : ParseError)
  | Evaluator (e : EvalError)
deriving DecidableEq, Repr

/-- `evaluate_expression` from src/mathengine/src/lib.rs: the full pipeline,
lexing then parsing then evaluation, each stage failing fast. -/
def evaluate_expression (expression : String) : Except MathEngineError Value :=
  match Lexer.tokenize expression with
  | .error e => .error (.Lexer e)
  | .ok tokens =>
    match Parser.parse tokens with
    | .error e => .error (.Parser e)
    | .ok expr =>
      match evaluate expr with
      | .error e => .error (.Evaluator e)
      | .ok result => .ok result

/-!
## Theorems

The Batteries rational operations are `@[irreducible]` by default; they are
made reducible here so that concrete runs of the embedded pipeline can be
evaluated by `decide`.
-/

section ClaimTheorems

attribute [local semireducible] Rat.add Rat.mul Rat.inv Rat.sub Rat.ofScientific

/-- `Except.ok` bound into a continuation reduces to the continuation. -/
theorem except_bind_ok {α β ε : Type} (a : α) (f : α → Except ε β) :
    (Except.ok a : Except ε α) >>= f = f a := rfl

/-- `Except.error` bound into a continuation stays the error. -/
theorem except_bind_error {α β ε : Type} (e : ε) (f : α → Except ε β) :
    (Except.error e : Except ε α) >>= f = .error e := rfl

/-- C1: the claim states that `Add`/`Subtract` on `Dimensioned` operands of
different dimension families always fails with `IncompatibleUnits` and never
silently returns one operand.  The code does the opposite: `1m` and `1C`
carry the distinct dimension families Length and Temperature, yet evaluating
their sum (and difference) succeeds, silently returning the LEFT operand
`1m` unchanged — `impl Add for UnitValue` returns `self` on a dimension
mismatch.  This theorem evaluates the code at that failing input. -/
theorem c1_mismatched_add_silently_returns_left :
    (UnitValue.new 1 "m").dimension = DimensionType.Length ∧
    (UnitValue.new 1 "C").dimension = DimensionType.Temperature ∧
    evaluate (.Binary .Add (.UnitValue 1 "m") (.UnitValue 1 "C")) =
      .ok (.UnitValue (UnitValue.new 1 "m")) ∧
    evaluate (.Binary .Subtract (.UnitValue 1 "m") (.UnitValue 1 "C")) =
      .ok (.UnitValue (UnitValue.new 1 "m")) := by
  decide

/-- C2: the claim states that a `Convert` whose left child EVALUATES to a
`Dimensioned` value never fails with "left side of conversion must be a unit
value", and that `"(1m + 2m) to feet"` converts successfully.  The code
instead matches the left child STRUCTURALLY against a `UnitValue` literal:
the parenthesized sum `1m + 2m` evaluates to the `Dimensioned` value `3 m`,
yet converting it fails with exactly that error, both on the raw expression
tree and through the full pipeline. -/
theorem c2_parenthesized_conversion_rejected :
    evaluate (.Binary .Add (.UnitValue 1 "m") (.UnitValue 2 "m")) =
      .ok (.UnitValue (UnitValue.new 3 "m")) ∧
    evaluate (.Binary .Convert
        (.Binary .Add (.UnitValue 1 "m") (.UnitValue 2 "m")) (.Unit "feet")) =
      .error (.InvalidUnitExpression "Left side of conversion must be a unit value") ∧
    evaluate_expression "(1m + 2m) to feet" =
      .error (.Evaluator
        (.InvalidUnitExpression "Left side of conversion must be a unit value")) := by
  decide

/-- C4: the claim states temperature parsing accepts the full names
"celsius" and "fahrenheit".  The source's match arms are misspelled
("celcius", "farenheit"), so the correctly spelled full names fail with
`UnknownUnit` (and no family recognizes them), while the misspellings and
the abbreviations C/F/K are accepted case-insensitively. -/
theorem c4_celsius_fahrenheit_rejected :
    TemperatureDimension.parse_unit "celsius" = .error (.UnknownUnit "celsius") ∧
    TemperatureDimension.parse_unit "fahrenheit" = .error (.UnknownUnit "fahrenheit") ∧
    DimensionType.from_unit "celsius" = .Unknown ∧
    DimensionType.from_unit "fahrenheit" = .Unknown ∧
    TemperatureDimension.parse_unit "celcius" = .ok .Celcius ∧
    TemperatureDimension.parse_unit "farenheit" = .ok .Farenheit ∧
    TemperatureDimension.parse_unit "C" = .ok .Celcius ∧
    TemperatureDimension.parse_unit "F" = .ok .Farenheit ∧
    TemperatureDimension.parse_unit "K" = .ok .Kelvin ∧
    TemperatureDimension.parse_unit "kelvin" = .ok .Kelvin := by
  decide

/-- C5: the parser's precedence table is Add/Subtract = 1,
Multiply/Divide = 2, Power = 3, Convert = 5; only Power is
right-associative; consequently the tokens of "2^3^2" parse as
`2^(3^2)` and the pipeline evaluates that input to `Number 512`. -/
theorem c5_precedence_and_right_associative_power :
    get_precedence .Add = 1 ∧ get_precedence .Subtract = 1 ∧
    get_precedence .Multiply = 2 ∧ get_precedence .Divide = 2 ∧
    get_precedence .Power = 3 ∧ get_precedence .Convert = 5 ∧
    is_right_associative .Power = true ∧
    is_right_associative .Add = false ∧
    is_right_associative .Subtract = false ∧
    is_right_associative .Multiply = false ∧
    is_right_associative .Divide = false ∧
    is_right_associative .Convert = false ∧
    Lexer.tokenize "2^3^2" =
      .ok [Token.Number 2, Token.Operation .Power, Token.Number 3,
        Token.Operation .Power, Token.Number 2] ∧
    Parser.parse [Token.Number 2, Token.Operation .Power, Token.Number 3,
        Token.Operation .Power, Token.Number 2] =
      .ok (.Binary .Power (.Number 2) (.Binary .Power (.Number 3) (.Number 2))) ∧
    evaluate_expression "2^3^2" = .ok (.Number 512) := by
  decide

/-- C6: for every `Divide` node whose right operand evaluates to
`Number 0`, evaluation fails with `DivisionByZero` whatever value the left
operand produced (both Number ÷ Number and Dimensioned ÷ Number, the zero
test being exact equality with 0); and when the divisor evaluates to any
non-zero `Number`, the node never raises `DivisionByZero`. -/
theorem c6_divide_by_zero_number :
    (∀ (l r : Expression) (lv : Value),
      evaluate l = .ok lv → evaluate r = .ok (.Number 0) →
      evaluate (.Binary .Divide l r) = .error .DivisionByZero) ∧
    (∀ (l r : Expression) (lv : Value) (rv : ℚ),
      evaluate l = .ok lv → evaluate r = .ok (.Number rv) → rv ≠ 0 →
      evaluate (.Binary .Divide l r) ≠ .error .DivisionByZero) := by
  constructor
  · intro l r lv h₁ h₂
    cases lv <;> simp [evaluate, h₁, h₂, except_bind_ok]
  · intro l r lv rv h₁ h₂ hne
    cases lv <;> simp [evaluate, h₁, h₂, hne, except_bind_ok]

/-- C6 witness: `2 / 0` and `1m / 0` both hit `DivisionByZero`; `2 / 1`
does not. -/
theorem c6_divide_by_zero_number_witness :
    evaluate (.Binary .Divide (.Number 2) (.Number 0)) = .error .DivisionByZero ∧
    evaluate (.Binary .Divide (.UnitValue 1 "m") (.Number 0)) = .error .DivisionByZero ∧
    evaluate (.Binary .Divide (.Number 2) (.Number 1)) ≠ .error .DivisionByZero :=
  ⟨c6_divide_by_zero_number.1 (.Number 2) (.Number 0) (.Number 2) rfl rfl,
   c6_divide_by_zero_number.1 (.UnitValue 1 "m") (.Number 0)
     (.UnitValue (UnitValue.new 1 "m")) rfl rfl,
   c6_divide_by_zero_number.2 (.Number 2) (.Number 1) (.Number 2) 1 rfl rfl
     (by norm_num)⟩

/-- Evaluation fact: "m" parses as the meter. -/
theorem parse_unit_m : LengthDimension.parse_unit "m" = .ok .Meter := rfl

/-- Evaluation fact: "m" classifies as Length. -/
theorem from_unit_m : DimensionType.from_unit "m" = .Length := rfl

/-- Evaluation fact: "K" parses as Kelvin. -/
theorem temp_parse_K : TemperatureDimension.parse_unit "K" = .ok .Kelvin := rfl

/-- Evaluation fact: "K" classifies as Temperature. -/
theorem from_unit_K : DimensionType.from_unit "K" = .Temperature := rfl

/-- A string the Length family parses classifies as Length (the classifier
tries Length first). -/
theorem from_unit_eq_length {u : String} {a : LengthUnit}
    (h : LengthDimension.parse_unit u = .ok a) : DimensionType.from_unit u = .Length := by
  simp [DimensionType.from_unit, LengthUnit.parse, h, Except.isOk, Except.toBool]

/-- `in_base_units` on a Length-tagged unit value whose unit string parses
as `a` is exactly the in-src `to_meters` transform tagged "m": the
canonical-name check, `convert_to` (whose direct table never targets the
meter) and the fallback all collapse to the base-unit route. -/
theorem in_base_units_length (v : ℚ) {u : String} {a : LengthUnit}
    (h : LengthDimension.parse_unit u = .ok a) :
    UnitValue.in_base_units ⟨v, u, .Length⟩ =
      UnitValue.new (LengthDimension.to_meters ⟨v, a⟩) "m" := by
  cases a <;>
  simp [UnitValue.in_base_units, UnitValue.base_unit, UnitValue.canonical_unit_name,
    UnitValue.convert_to, UnitValue.to_base_value, UnitValue.new,
    DimensionType.base_unit_string, DimensionType.parse_unit_str,
    DimensionType.canonical_string, DimensionType.convert_value,
    DimensionType.to_base_value, from_unit_m, parse_unit_m,
    Dimension.Length.base_unit, Dimension.Length.convert_value,
    Dimension.Length.to_base_value, Dimension.Length.from_base_value,
    LengthUnit.parse, h, Except.map, Except.isOk, Except.toBool,
    Unit.dimension_type, Unit.canonical_string, LengthUnit.canonical_string,
    LengthDimension.convert_direct, LengthDimension.to_meters,
    LengthDimension.from_meters]

/-- `in_base_units` on a Temperature-tagged unit value whose unit string
parses as `t` is exactly the in-src `to_kelvin` transform tagged "K". -/
theorem in_base_units_temperature (v : ℚ) {u : String} {t : TemperatureUnit}
    (h : TemperatureDimension.parse_unit u = .ok t) :
    UnitValue.in_base_units ⟨v, u, .Temperature⟩ =
      UnitValue.new (TemperatureDimension.to_kelvin ⟨v, t⟩) "K" := by
  cases t <;>
  simp [UnitValue.in_base_units, UnitValue.base_unit, UnitValue.canonical_unit_name,
    UnitValue.convert_to, UnitValue.to_base_value, UnitValue.new,
    DimensionType.base_unit_string, DimensionType.parse_unit_str,
    DimensionType.canonical_string, DimensionType.convert_value,
    DimensionType.to_base_value, from_unit_K, temp_parse_K,
    Dimension.Temperature.base_unit, Dimension.Temperature.convert_value,
    Dimension.Temperature.to_base_value, Dimension.Temperature.from_base_value,
    TemperatureUnit.parse, h, Except.map, Except.isOk, Except.toBool,
    Unit.dimension_type, Unit.canonical_string, TemperatureUnit.canonical_string,
    TemperatureDimension.to_kelvin, TemperatureDimension.from_kelvin]

/-- C3: `Add`/`Subtract` of two Dimensioned operands of one family convert
both operands to the family's base unit (meters via `to_meters`, Kelvin via
`to_kelvin`), combine there, and tag the result with the base unit ("m"
resp. "K"); and the pipeline evaluates "1m + 1m + 100cm" to exactly
`Dimensioned{3, "m"}`. -/
theorem c3_add_sub_in_base_units :
    (∀ (v₁ v₂ : ℚ) (u₁ u₂ : String) (a b : LengthUnit),
      LengthDimension.parse_unit u₁ = .ok a →
      LengthDimension.parse_unit u₂ = .ok b →
      evaluate (.Binary .Add (.UnitValue v₁ u₁) (.UnitValue v₂ u₂)) =
        .ok (.UnitValue (UnitValue.new
          (LengthDimension.to_meters ⟨v₁, a⟩ + LengthDimension.to_meters ⟨v₂, b⟩) "m"))) ∧
    (∀ (v₁ v₂ : ℚ) (u₁ u₂ : String) (a b : LengthUnit),
      LengthDimension.parse_unit u₁ = .ok a →
      LengthDimension.parse_unit u₂ = .ok b →
      evaluate (.Binary .Subtract (.UnitValue v₁ u₁) (.UnitValue v₂ u₂)) =
        .ok (.UnitValue (UnitValue.new
          (LengthDimension.to_meters ⟨v₁, a⟩ - LengthDimension.to_meters ⟨v₂, b⟩) "m"))) ∧
    (∀ (v₁ v₂ : ℚ) (u₁ u₂ : String) (a b : TemperatureUnit),
      DimensionType.from_unit u₁ = .Temperature →
      DimensionType.from_unit u₂ = .Temperature →
      TemperatureDimension.parse_unit u₁ = .ok a →
      TemperatureDimension.parse_unit u₂ = .ok b →
      evaluate (.Binary .Add (.UnitValue v₁ u₁) (.UnitValue v₂ u₂)) =
        .ok (.UnitValue (UnitValue.new
          (TemperatureDimension.to_kelvin ⟨v₁, a⟩ + TemperatureDimension.to_kelvin ⟨v₂, b⟩) "K"))) ∧
    (∀ (v₁ v₂ : ℚ) (u₁ u₂ : String) (a b : TemperatureUnit),
      DimensionType.from_unit u₁ = .Temperature →
      DimensionType.from_unit u₂ = .Temperature →
      TemperatureDimension.parse_unit u₁ = .ok a →
      TemperatureDimension.parse_unit u₂ = .ok b →
      evaluate (.Binary .Subtract (.UnitValue v₁ u₁) (.UnitValue v₂ u₂)) =
        .ok (.UnitValue (UnitValue.new
          (TemperatureDimension.to_kelvin ⟨v₁, a⟩ - TemperatureDimension.to_kelvin ⟨v₂, b⟩) "K"))) ∧
    evaluate_expression "1m + 1m + 100cm" = .ok (.UnitValue ⟨3, "m", .Length⟩) ∧
    UnitValue.new 3 "m" = ⟨3, "m", .Length⟩ := by
  refine ⟨?_, ?_, ?_, ?_, ?_, ?_⟩
  · intro v₁ v₂ u₁ u₂ a b h₁ h₂
    simp [evaluate, except_bind_ok, UnitValue.new, from_unit_eq_length h₁,
      from_unit_eq_length h₂, UnitValue.add, UnitValue.same_dimension_as,
      in_base_units_length v₁ h₁, in_base_units_length v₂ h₂, from_unit_m]
  · intro v₁ v₂ u₁ u₂ a b h₁ h₂
    simp [evaluate, except_bind_ok, UnitValue.new, from_unit_eq_length h₁,
      from_unit_eq_length h₂, UnitValue.sub, UnitValue.same_dimension_as,
      in_base_units_length v₁ h₁, in_base_units_length v₂ h₂, from_unit_m]
  · intro v₁ v₂ u₁ u₂ a b hd₁ hd₂ h₁ h₂
    simp [evaluate, except_bind_ok, UnitValue.new, hd₁, hd₂,
      UnitValue.add, UnitValue.same_dimension_as,
      in_base_units_temperature v₁ h₁, in_base_units_temperature v₂ h₂, from_unit_K]
  · intro v₁ v₂ u₁ u₂ a b hd₁ hd₂ h₁ h₂
    simp [evaluate, except_bind_ok, UnitValue.new, hd₁, hd₂,
      UnitValue.sub, UnitValue.same_dimension_as,
      in_base_units_temperature v₁ h₁, in_base_units_temperature v₂ h₂, from_unit_K]
  · decide
  · decide

/-- C3 witness: instantiating the Length `Add` part at `1m + 100cm` (and a
Temperature instance at `1C + 1K`). -/
theorem c3_add_sub_in_base_units_witness :
    evaluate (.Binary .Add (.UnitValue 1 "m") (.UnitValue 100 "cm")) =
      .ok (.UnitValue (UnitValue.new
        (LengthDimension.to_meters ⟨1, .Meter⟩ + LengthDimension.to_meters ⟨100, .Centimeter⟩) "m")) ∧
    evaluate (.Binary .Add (.UnitValue 1 "C") (.UnitValue 1 "K")) =
      .ok (.UnitValue (UnitValue.new
        (TemperatureDimension.to_kelvin ⟨1, .Celcius⟩ + TemperatureDimension.to_kelvin ⟨1, .Kelvin⟩) "K")) :=
  ⟨c3_add_sub_in_base_units.1 1 100 "m" "cm" .Meter .Centimeter rfl rfl,
   c3_add_sub_in_base_units.2.2.1 1 1 "C" "K" .Celcius .Kelvin rfl rfl rfl rfl⟩

/-- Converting any length from `a` to `b` and back to `a` is exactly the
identity in the rational model, across every combination of direct-formula
and base-unit routes. -/
theorem length_roundtrip (a b : LengthUnit) (v : ℚ) :
    ((LengthDimension.convert_to (LengthDimension.convert_to ⟨v, a⟩ b)) a).value = v := by
  cases a <;> cases b <;>
    simp [LengthDimension.convert_to, LengthDimension.convert_direct,
      LengthDimension.to_meters, LengthDimension.from_meters]
  all_goals field_simp
  all_goals ring

/-- Converting any temperature from `a` to `b` and back to `a` is exactly
the identity in the rational model (all routes go through Kelvin). -/
theorem temperature_roundtrip (a b : TemperatureUnit) (v : ℚ) :
    ((TemperatureDimension.convert_to (TemperatureDimension.convert_to ⟨v, a⟩ b)) a).value = v := by
  cases a <;> cases b <;>
    simp [TemperatureDimension.convert_to, TemperatureDimension.to_kelvin,
      TemperatureDimension.from_kelvin]

/-- C8: for both unit families, every unit pair `a`,`b` and every value,
converting from `a` to `b` and back reproduces the value within 1e-9
relative tolerance — including the pairs where one leg takes the
direct-formula path and the other the base-unit route (in the rational
model the round trip is exact, so the tolerance bound holds with zero
error). -/
theorem c8_roundtrip_within_tolerance :
    (∀ (a b : LengthUnit) (v : ℚ),
      |(((⟨v, a⟩ : LengthDimension).convert_to b).convert_to a).value - v| ≤ 1e-9 * |v|) ∧
    (∀ (a b : TemperatureUnit) (v : ℚ),
      |(((⟨v, a⟩ : TemperatureDimension).convert_to b).convert_to a).value - v| ≤ 1e-9 * |v|) := by
  constructor
  · intro a b v
    rw [length_roundtrip]
    simp
    positivity
  · intro a b v
    rw [temperature_roundtrip]
    simp
    positivity

/-- C9: the evaluator's `get_dimension_type` and the parser's
`DimensionType::from_unit` are extensionally equal, and both try the Length
parser first, then the Temperature parser, returning `Unknown` when both
fail. -/
theorem c9_classifiers_extensionally_equal :
    (∀ s : String, get_dimension_type s = DimensionType.from_unit s) ∧
    (∀ s : String, (LengthDimension.parse_unit s).isOk = true →
      get_dimension_type s = .Length) ∧
    (∀ s : String, (LengthDimension.parse_unit s).isOk = false →
      (TemperatureDimension.parse_unit s).isOk = true →
      get_dimension_type s = .Temperature) ∧
    (∀ s : String, (LengthDimension.parse_unit s).isOk = false →
      (TemperatureDimension.parse_unit s).isOk = false →
      get_dimension_type s = .Unknown) := by
  refine ⟨fun s => rfl, ?_, ?_, ?_⟩
  · intro s h
    simp [get_dimension_type, h]
  · intro s h h'
    simp [get_dimension_type, h, h']
  · intro s h h'
    simp [get_dimension_type, h, h']

/-- C9 witness: "m" parses as a length so both classifiers say Length; "C"
fails the Length parser and parses as a temperature. -/
theorem c9_classifiers_extensionally_equal_witness :
    get_dimension_type "m" = .Length ∧
    get_dimension_type "C" = .Temperature ∧
    get_dimension_type "xyz" = .Unknown :=
  ⟨c9_classifiers_extensionally_equal.2.1 "m" rfl,
   c9_classifiers_extensionally_equal.2.2.1 "C" rfl rfl,
   c9_classifiers_extensionally_equal.2.2.2 "xyz" rfl rfl⟩

/-- C10: `canonicalize_unit` is total — the `unwrap` can never panic,
because whenever the classifier answers Length (resp. Temperature) the same
family's parse necessarily succeeds — and every unit string maps either to
its family's canonical abbreviation or to the literal string "unknown". -/
theorem c10_canonicalize_unit_never_panics :
    (∀ s : String, (canonicalize_unit s).isSome = true) ∧
    (∀ s : String, DimensionType.from_unit s = .Length →
      (LengthDimension.parse_unit s).isOk = true) ∧
    (∀ s : String, DimensionType.from_unit s = .Temperature →
      (TemperatureDimension.parse_unit s).isOk = true) ∧
    (∀ s : String, canonicalize_unit s = some "unknown" ∨
      (∃ a : LengthUnit, LengthDimension.parse_unit s = .ok a ∧
        canonicalize_unit s = some a.canonical_string) ∨
      (∃ t : TemperatureUnit, TemperatureDimension.parse_unit s = .ok t ∧
        canonicalize_unit s = some t.canonical_string)) := by
  refine ⟨?_, ?_, ?_, ?_⟩
  · intro s
    cases hp : LengthDimension.parse_unit s <;>
      cases ht : TemperatureDimension.parse_unit s <;>
      simp [canonicalize_unit, DimensionType.from_unit, LengthUnit.parse,
        TemperatureUnit.parse, hp, ht, Except.isOk, Except.toBool, Except.toOption]
  · intro s h
    cases hp : LengthDimension.parse_unit s with
    | ok a => simp [Except.isOk, Except.toBool]
    | error e =>
      exfalso
      cases ht : TemperatureDimension.parse_unit s <;>
        simp [DimensionType.from_unit, LengthUnit.parse, TemperatureUnit.parse,
          hp, ht, Except.isOk, Except.toBool] at h
  · intro s h
    cases ht : TemperatureDimension.parse_unit s with
    | ok t => simp [Except.isOk, Except.toBool]
    | error e =>
      exfalso
      cases hp : LengthDimension.parse_unit s <;>
        simp [DimensionType.from_unit, LengthUnit.parse, TemperatureUnit.parse,
          hp, ht, Except.isOk, Except.toBool] at h
  · intro s
    cases hp : LengthDimension.parse_unit s with
    | ok a =>
      refine Or.inr (Or.inl ⟨a, rfl, ?_⟩)
      simp [canonicalize_unit, DimensionType.from_unit, LengthUnit.parse, hp,
        Except.isOk, Except.toBool, Except.toOption]
    | error e =>
      cases ht : TemperatureDimension.parse_unit s with
      | ok t =>
        refine Or.inr (Or.inr ⟨t, rfl, ?_⟩)
        simp [canonicalize_unit, DimensionType.from_unit, LengthUnit.parse,
          TemperatureUnit.parse, hp, ht, Except.isOk, Except.toBool, Except.toOption]
      | error e' =>
        refine Or.inl ?_
        simp [canonicalize_unit, DimensionType.from_unit, LengthUnit.parse,
          TemperatureUnit.parse, hp, ht, Except.isOk, Except.toBool, Except.toOption]

/-- C10 witness: concrete classifications and the canonical/unknown shapes
for "meters", "celcius" and "xyz". -/
theorem c10_canonicalize_unit_never_panics_witness :
    (canonicalize_unit "meters").isSome = true ∧
    (LengthDimension.parse_unit "meters").isOk = true ∧
    (TemperatureDimension.parse_unit "celcius").isOk = true ∧
    (canonicalize_unit "xyz").isSome = true :=
  ⟨c10_canonicalize_unit_never_panics.1 "meters",
   c10_canonicalize_unit_never_panics.2.1 "meters" rfl,
   c10_canonicalize_unit_never_panics.2.2.1 "celcius" rfl,
   c10_canonicalize_unit_never_panics.1 "xyz"⟩

/-- A successful indexed lookup implies the index is in bounds. -/
theorem getElem?_pos_lt {tokens : List Token} {pos : Nat} {t : Token}
    (h : tokens[pos]? = some t) : pos < tokens.length :=
  (List.getElem?_eq_some_iff.mp h).1

/-- The parser's cursor never runs past the end of the token vector: any
successful result of the three parsing functions has its end position within
bounds (the fold additionally assumes its starting position is). -/
theorem parse_pos_le (fuel : Nat) :
    (∀ (tokens : List Token) (pos : Nat) (e : Expression) (p : Nat),
      parse_primary tokens fuel pos = .ok (e, p) → p ≤ tokens.length) ∧
    (∀ (tokens : List Token) (minp : Nat) (left : Expression) (pos : Nat)
       (e : Expression) (p : Nat),
      pos ≤ tokens.length →
      parse_binary_fold tokens fuel minp left pos = .ok (e, p) → p ≤ tokens.length) ∧
    (∀ (tokens : List Token) (minp pos : Nat) (e : Expression) (p : Nat),
      parse_expression tokens fuel minp pos = .ok (e, p) → p ≤ tokens.length) := by
  induction fuel with
  | zero =>
    refine ⟨?_, ?_, ?_⟩ <;> intros <;>
      simp [parse_primary, parse_binary_fold, parse_expression] at *
  | succ n ih =>
    obtain ⟨ihP, ihB, ihE⟩ := ih
    refine ⟨?_, ?_, ?_⟩
    · intro tokens pos e p h
      simp only [parse_primary] at h
      cases htok : tokens[pos]? with
      | none => simp [htok] at h
      | some t =>
        rw [htok] at h
        have hlt := getElem?_pos_lt htok
        cases t with
        | Number nq =>
          simp only [Except.ok.injEq, Prod.mk.injEq] at h
          obtain ⟨-, rfl⟩ := h
          omega
        | UnitValue vq uq =>
          simp only [Except.ok.injEq, Prod.mk.injEq] at h
          obtain ⟨-, rfl⟩ := h
          omega
        | Unit uq =>
          simp only [Except.ok.injEq, Prod.mk.injEq] at h
          obtain ⟨-, rfl⟩ := h
          omega
        | Lparen =>
          cases hpe : parse_expression tokens n 0 (pos + 1) with
          | error e' => simp [hpe, except_bind_error] at h
          | ok r =>
            obtain ⟨e₀, p₀⟩ := r
            simp only [hpe, except_bind_ok] at h
            cases htok2 : tokens[p₀]? with
            | none => simp [htok2] at h
            | some t2 =>
              rw [htok2] at h
              have hlt2 := getElem?_pos_lt htok2
              cases t2 with
              | Rparen =>
                simp only [Except.ok.injEq, Prod.mk.injEq] at h
                obtain ⟨-, rfl⟩ := h
                omega
              | Operation op2 => simp at h
              | Number nq2 => simp at h
              | UnitValue v2 u2 => simp at h
              | Unit u2 => simp at h
              | Lparen => simp at h
        | Rparen => simp at h
        | Operation op =>
          cases op with
          | Subtract =>
            cases hpp : parse_primary tokens n (pos + 1) with
            | error e' => simp [hpp, except_bind_error] at h
            | ok r =>
              obtain ⟨e₀, p₀⟩ := r
              simp only [hpp, except_bind_ok, Except.ok.injEq, Prod.mk.injEq] at h
              obtain ⟨-, rfl⟩ := h
              exact ihP tokens (pos + 1) e₀ p₀ hpp
          | Add => simp at h
          | Divide => simp at h
          | Multiply => simp at h
          | Power => simp at h
          | Convert => simp at h
    · intro tokens minp left pos e p hpos h
      simp only [parse_binary_fold] at h
      cases htok : tokens[pos]? with
      | none =>
        rw [htok] at h
        simp only [Except.ok.injEq, Prod.mk.injEq] at h
        obtain ⟨-, rfl⟩ := h
        exact hpos
      | some t =>
        rw [htok] at h
        cases t with
        | Operation op =>
          simp only at h
          by_cases hprec : get_precedence op < minp
          · rw [if_pos hprec] at h
            simp only [Except.ok.injEq, Prod.mk.injEq] at h
            obtain ⟨-, rfl⟩ := h
            exact hpos
          · rw [if_neg hprec] at h
            cases hpe : parse_expression tokens n
                (if is_right_associative op then get_precedence op
                 else get_precedence op + 1) (pos + 1) with
            | error e' => simp [hpe, except_bind_error] at h
            | ok r =>
              obtain ⟨r₀, p₀⟩ := r
              simp only [hpe, except_bind_ok] at h
              exact ihB tokens minp (.Binary op left r₀) p₀ e p
                (ihE tokens _ (pos + 1) r₀ p₀ hpe) h
        | Number nq =>
          simp only [Except.ok.injEq, Prod.mk.injEq] at h
          obtain ⟨-, rfl⟩ := h
          exact hpos
        | UnitValue vq uq =>
          simp only [Except.ok.injEq, Prod.mk.injEq] at h
          obtain ⟨-, rfl⟩ := h
          exact hpos
        | Unit uq =>
          simp only [Except.ok.injEq, Prod.mk.injEq] at h
          obtain ⟨-, rfl⟩ := h
          exact hpos
        | Lparen =>
          simp only [Except.ok.injEq, Prod.mk.injEq] at h
          obtain ⟨-, rfl⟩ := h
          exact hpos
        | Rparen =>
          simp only [Except.ok.injEq, Prod.mk.injEq] at h
          obtain ⟨-, rfl⟩ := h
          exact hpos
    · intro tokens minp pos e p h
      simp only [parse_expression] at h
      cases hp : parse_primary tokens n pos with
      | error e' => simp [hp, except_bind_error] at h
      | ok r =>
        obtain ⟨l₀, p₀⟩ := r
        simp only [hp, except_bind_ok] at h
        exact ihB tokens minp l₀ p₀ e p (ihP tokens pos l₀ p₀ hp) h

/-- None of the three parsing functions ever produces `EmptyTokenStream`;
that error belongs to the top-level `parse` alone. -/
theorem parse_no_empty_token_stream (fuel : Nat) :
    (∀ (tokens : List Token) (pos : Nat),
      parse_primary tokens fuel pos ≠ .error .EmptyTokenStream) ∧
    (∀ (tokens : List Token) (minp : Nat) (left : Expression) (pos : Nat),
      parse_binary_fold tokens fuel minp left pos ≠ .error .EmptyTokenStream) ∧
    (∀ (tokens : List Token) (minp pos : Nat),
      parse_expression tokens fuel minp pos ≠ .error .EmptyTokenStream) := by
  induction fuel with
  | zero =>
    refine ⟨?_, ?_, ?_⟩ <;> intros <;>
      simp [parse_primary, parse_binary_fold, parse_expression]
  | succ n ih =>
    obtain ⟨ihP, ihB, ihE⟩ := ih
    refine ⟨?_, ?_, ?_⟩
    · intro tokens pos
      simp only [parse_primary]
      cases htok : tokens[pos]? with
      | none => simp
      | some t =>
        cases t with
        | Number nq => simp
        | UnitValue vq uq => simp
        | Unit uq => simp
        | Rparen => simp
        | Lparen =>
          cases hpe : parse_expression tokens n 0 (pos + 1) with
          | error e' =>
            simp only [except_bind_error, ne_eq, Except.error.injEq]
            intro hcon
            rw [hcon] at hpe
            exact ihE tokens 0 (pos + 1) hpe
          | ok r =>
            obtain ⟨e₀, p₀⟩ := r
            simp only [except_bind_ok]
            cases htok2 : tokens[p₀]? with
            | none => simp
            | some t2 => cases t2 <;> simp
        | Operation op =>
          cases op with
          | Subtract =>
            cases hpp : parse_primary tokens n (pos + 1) with
            | error e' =>
              simp only [except_bind_error, ne_eq, Except.error.injEq]
              intro hcon
              rw [hcon] at hpp
              exact ihP tokens (pos + 1) hpp
            | ok r =>
              obtain ⟨e₀, p₀⟩ := r
              simp [except_bind_ok]
          | Add => simp
          | Divide => simp
          | Multiply => simp
          | Power => simp
          | Convert => simp
    · intro tokens minp left pos
      simp only [parse_binary_fold]
      cases htok : tokens[pos]? with
      | none => simp
      | some t =>
        cases t with
        | Operation op =>
          simp only
          by_cases hprec : get_precedence op < minp
          · rw [if_pos hprec]
            simp
          · rw [if_neg hprec]
            cases hpe : parse_expression tokens n
                (if is_right_associative op then get_precedence op
                 else get_precedence op + 1) (pos + 1) with
            | error e' =>
              simp only [except_bind_error, ne_eq, Except.error.injEq]
              intro hcon
              rw [hcon] at hpe
              exact ihE tokens _ (pos + 1) hpe
            | ok r =>
              obtain ⟨r₀, p₀⟩ := r
              simp only [except_bind_ok]
              exact ihB tokens minp (.Binary op left r₀) p₀
        | Number nq => simp
        | UnitValue vq uq => simp
        | Unit uq => simp
        | Lparen => simp
        | Rparen => simp
    · intro tokens minp pos
      simp only [parse_expression]
      cases hp : parse_primary tokens n pos with
      | error e' =>
        simp only [except_bind_error, ne_eq, Except.error.injEq]
        intro hcon
        rw [hcon] at hp
        exact ihP tokens pos hp
      | ok r =>
        obtain ⟨l₀, p₀⟩ := r
        simp only [except_bind_ok]
        exact ihB tokens minp l₀ p₀

/-- C7: `Parser::parse` fails with `EmptyTokenStream` exactly when the
token list is empty; a successful parse means the single expression parsed
at minimum precedence 0 consumed the entire token sequence; and whenever
the precedence-0 parse succeeds but leaves a token unconsumed, `parse`
fails with `UnexpectedToken` whose expected field is "end of input". -/
theorem c7_parse_consumes_entire_stream :
    (∀ tokens : List Token, Parser.parse tokens = .error .EmptyTokenStream ↔ tokens = []) ∧
    (∀ (tokens : List Token) (e : Expression), Parser.parse tokens = .ok e →
      parse_expression tokens (parse_fuel tokens) 0 0 = .ok (e, tokens.length)) ∧
    (∀ (tokens : List Token) (e : Expression) (pos : Nat), tokens ≠ [] →
      parse_expression tokens (parse_fuel tokens) 0 0 = .ok (e, pos) →
      pos < tokens.length →
      Parser.parse tokens =
        .error (.UnexpectedToken "end of input" (tokens.getD pos (.Number 0)) pos)) := by
  refine ⟨?_, ?_, ?_⟩
  · intro tokens
    cases tokens with
    | nil => simp [Parser.parse]
    | cons a as =>
      constructor
      · intro h
        exfalso
        simp only [Parser.parse, List.isEmpty_cons, Bool.false_eq_true, if_false] at h
        cases hpe : parse_expression (a :: as) (parse_fuel (a :: as)) 0 0 with
        | error e' =>
          rw [hpe] at h
          simp only [Except.error.injEq] at h
          rw [h] at hpe
          exact (parse_no_empty_token_stream _).2.2 (a :: as) 0 0 hpe
        | ok r =>
          obtain ⟨e₀, p₀⟩ := r
          simp only [hpe] at h
          by_cases hlt : p₀ < (a :: as).length
          · rw [if_pos hlt] at h
            simp at h
          · rw [if_neg hlt] at h
            simp at h
      · intro h
        simp at h
  · intro tokens e h
    cases tokens with
    | nil => simp [Parser.parse] at h
    | cons a as =>
      simp only [Parser.parse, List.isEmpty_cons, Bool.false_eq_true, if_false] at h
      cases hpe : parse_expression (a :: as) (parse_fuel (a :: as)) 0 0 with
      | error e' => simp only [hpe] at h; simp at h
      | ok r =>
        obtain ⟨e₀, p₀⟩ := r
        simp only [hpe] at h
        by_cases hlt : p₀ < (a :: as).length
        · rw [if_pos hlt] at h
          simp at h
        · rw [if_neg hlt] at h
          simp only [Except.ok.injEq] at h
          have hle := (parse_pos_le (parse_fuel (a :: as))).2.2 (a :: as) 0 0 e₀ p₀ hpe
          have heq : p₀ = (a :: as).length := by omega
          rw [h, heq]
  · intro tokens e pos hne hpe hlt
    cases tokens with
    | nil => exact absurd rfl hne
    | cons a as =>
      simp only [Parser.parse, List.isEmpty_cons, Bool.false_eq_true, if_false, hpe]
      rw [if_pos hlt]

/-- C7 witness: the empty stream, a two-number stream (leftover token), and
a single number (full consumption). -/
theorem c7_parse_consumes_entire_stream_witness :
    Parser.parse ([] : List Token) = .error .EmptyTokenStream ∧
    Parser.parse [Token.Number 1, Token.Number 2] =
      .error (.UnexpectedToken "end of input" (Token.Number 2) 1) ∧
    Parser.parse [Token.Number 1] = .ok (.Number 1) ∧
    parse_expression [Token.Number 1] (parse_fuel [Token.Number 1]) 0 0 =
      .ok (.Number 1, 1) :=
  ⟨(c7_parse_consumes_entire_stream.1 []).mpr rfl,
   c7_parse_consumes_entire_stream.2.2 [Token.Number 1, Token.Number 2] (.Number 1) 1
     (by simp) rfl (by simp),
   rfl,
   c7_parse_consumes_entire_stream.2.1 [Token.Number 1] (.Number 1) rfl⟩

end ClaimTheorems

end MathEngine
